import Mathlib

/-!
Verification development for the focusmunk browsing-restriction extension.

The repository contains two background-process variants:
* `extension/scripts/background.js` — the server-config variant: cached policy
  snapshot (`config`), free-time budget, whitelist, YouTube secondary checks;
* a second background worker (`enabled` master switch, weekly schedules,
  regex whitelist) — its `shouldBlockUrl` / `timeInRangeNow` / `compileRegexes`
  are embedded below as well.

Modelling conventions:
* JavaScript numbers used as millisecond timestamps are `Int`; quantities in
  seconds obtained through division by 1000 are `ℚ` (JS `/` is exact here for
  the purpose of ordering comparisons).
* JS `null`/`undefined` is `Option.none`.  JS truthiness on a nullable number
  is `jsTruthyI` (`0` is falsy); on a nullable string it is `jsTruthyS`
  (`""` is falsy).
* The platform's regular-expression engine and URL parser are externals; they
  are passed as parameters (`rex : String → Option (String → Bool)` — `none`
  models a `RegExp` constructor throw — and
  `parse : String → Option URLParts` — `none` models a `new URL` throw).
* String operations (`toLowerCase`, `trim`, `includes`, `startsWith`, prefix
  stripping by anchored regex replace) are modelled by kernel-reducible
  functions over `String.data`; `subStrB n h` is JS `h.includes(n)`
  (so `subStrB "" h = true`, as in JS); `lowerS` is ASCII `toLowerCase`.
-/

/-- Boolean prefix test on character lists. -/
def isPreB : List Char → List Char → Bool
  | [], _ => true
  | _ :: _, [] => false
  | a :: as, b :: bs => a == b && isPreB as bs

/-- Boolean infix (contiguous substring) test on character lists. -/
def infB : List Char → List Char → Bool
  | n, [] => isPreB n []
  | n, b :: bs => isPreB n (b :: bs) || infB n bs

/-- JS `hay.includes(needle)`. -/
def subStrB (needle hay : String) : Bool :=
  infB needle.data hay.data

/-- JS `s.startsWith(p)`. -/
def startsB (p s : String) : Bool :=
  isPreB p.data s.data

/-- JS `s.toLowerCase()` (ASCII range, which is all the code compares). -/
def lowerS (s : String) : String :=
  ⟨s.data.map Char.toLower⟩

/-- Drop leading whitespace from a character list. -/
def trimL (l : List Char) : List Char :=
  l.dropWhile fun c => c.isWhitespace

/-- JS `s.trim()`. -/
def wsTrim (s : String) : String :=
  ⟨(trimL (trimL s.data).reverse).reverse⟩

/-- JS `s.slice(n)` on code points (used to strip a matched literal). -/
def dropS (s : String) (n : Nat) : String :=
  ⟨s.data.drop n⟩

/-- The characters before the first `/`. -/
def headSeg : List Char → List Char
  | [] => []
  | c :: cs => if c == '/' then [] else c :: headSeg cs

/-- JS `s.split('/')[0]`. -/
def headSegment (s : String) : String :=
  ⟨headSeg s.data⟩

/-- JS truthiness of a nullable number (`null`/`undefined`/`0` are falsy). -/
def jsTruthyI : Option Int → Bool
  | none => false
  | some v => v != 0

/-- JS truthiness of a nullable string (`null`/`undefined`/`""` are falsy). -/
def jsTruthyS : Option String → Bool
  | none => false
  | some v => v != ""

/-- The server-owned policy object cached by `background.js` (`config`).
`disabledUntil` is a date value (present ⇔ the JSON field is a non-empty
date string); `freeTimeStartedAt` and timestamps are epoch milliseconds;
`freeTimeRemaining` is in seconds. -/
structure Config where
  disabledUntil : Option Int := none
  freeTimeStartedAt : Option Int := none
  freeTimeRemaining : Option ℚ := none
  whitelist : Option (List String) := none
  youtubeCreators : Option (List String) := none
  youtubeKeywords : Option (List String) := none
deriving DecidableEq

/-- The module-level mutable state of `background.js`:
`apiUrl`, `configId`, `config`, `lastSyncTime`. -/
structure BgState where
  apiUrl : Option String := none
  configId : Option String := none
  config : Option Config := none
  lastSyncTime : Option Int := none
deriving DecidableEq

/-- `isTemporarilyDisabled()` from `background.js`. -/
def isTemporarilyDisabled (s : BgState) (now : Int) : Bool :=
  match s.config with
  | none => false
  | some c =>
    match c.disabledUntil with
    | none => false
    | some d => decide (now < d)

/-- `isFreeTime()` from `background.js`.  `now` is `Date.now()` in ms.
The session-open test is `config.freeTimeStartedAt !== null && !== undefined`;
the `lastSyncTime` test is JS truthiness. -/
def isFreeTime (s : BgState) (now : Int) : Bool :=
  match s.config with
  | none => false
  | some c =>
    if (match c.disabledUntil with
        | none => false
        | some d => decide (now < d)) then
      true
    else
      match c.freeTimeStartedAt with
      | none => false
      | some _ =>
        let serverRemaining : ℚ := c.freeTimeRemaining.getD 0
        match s.lastSyncTime with
        | some t =>
          if t != 0 then
            decide (serverRemaining - (((now : ℚ) - (t : ℚ)) / 1000) > 0)
          else
            decide (serverRemaining > 0)
        | none => decide (serverRemaining > 0)

/-- `getLocalRemainingSeconds()` from `background.js`.  Note the branch guard
is JS truthiness on both `lastSyncTime` and `config.freeTimeStartedAt`. -/
def getLocalRemainingSeconds (s : BgState) (now : Int) : ℚ :=
  match s.config with
  | none => 0
  | some c =>
    let serverRemaining : ℚ := c.freeTimeRemaining.getD 0
    match s.lastSyncTime, c.freeTimeStartedAt with
    | some t, some f =>
      if t != 0 && f != 0 then
        max 0 (serverRemaining - (((now : ℚ) - (t : ℚ)) / 1000))
      else
        serverRemaining
    | some _, none => serverRemaining
    | none, _ => serverRemaining

/-- `matchesWhitelist(url)` from `background.js`.  `rex p` is the attempt to
build `new RegExp(p, 'i')` and returns the compiled test, or `none` when the
constructor throws, in which case the code falls back to case-insensitive
substring containment of the pattern in the URL. -/
def matchesWhitelist (rex : String → Option (String → Bool))
    (s : BgState) (url : String) : Bool :=
  match s.config with
  | none => false
  | some c =>
    match c.whitelist with
    | none => false
    | some wl =>
      wl.any fun p =>
        match rex p with
        | some tst => tst url
        | none => subStrB (lowerS p) (lowerS url)

/-- Result of the platform's URL parser (`new URL(url)`): the fields
`background.js` reads. -/
structure URLParts where
  hostname : String
  pathname : String
deriving DecidableEq

/-- `isYouTubeVideo(url)` from `background.js` (`parse` is `new URL`;
`none` models the constructor throwing, caught as `return false`). -/
def isYouTubeVideo (parse : String → Option URLParts) (url : String) : Bool :=
  match parse url with
  | none => false
  | some u =>
    (u.hostname == "www.youtube.com" || u.hostname == "youtube.com")
      && u.pathname == "/watch"

/-- `isYouTubeAllowedPage(url)` from `background.js`. -/
def isYouTubeAllowedPage (parse : String → Option URLParts) (url : String) : Bool :=
  match parse url with
  | none => false
  | some u =>
    if u.hostname != "www.youtube.com" && u.hostname != "youtube.com" then false
    else if u.pathname == "/" || u.pathname == "" || u.pathname == "/results" then true
    else if startsB ("/@") u.pathname || startsB ("/c/") u.pathname
        || startsB ("/channel/") u.pathname || startsB ("/user/") u.pathname then true
    else false

/-- `shouldBlock(url)` from `background.js`: the navigation-gate decision
(`true` = Block, `false` = Allow). -/
def shouldBlock (rex : String → Option (String → Bool))
    (parse : String → Option URLParts)
    (s : BgState) (url : String) (now : Int) : Bool :=
  if startsB ("chrome://") url || startsB ("chrome-extension://") url then false
  else if !(jsTruthyS s.configId) then true
  else if isFreeTime s now then false
  else if matchesWhitelist rex s url then false
  else if isYouTubeAllowedPage parse url then false
  else if isYouTubeVideo parse url then false
  else true

/-- `normalizeCreator(input)` from `background.js`: lower-case and trim, then
strip (each at most once, anchored at the start) the scheme, `www.`,
`youtube.com/`, `@`, `/c/`・`/channel/`・`/user/` with or without the leading
slash, and keep only the segment before the first remaining `/`. -/
def normalizeCreator (input : String) : String :=
  if input = "" then ""
  else
    let s := wsTrim (lowerS input)
    let s := if startsB ("https://") s then dropS s 8
             else if startsB ("http://") s then dropS s 7 else s
    let s := if startsB ("www.") s then dropS s 4 else s
    let s := if startsB ("youtube.com/") s then dropS s 12 else s
    let s := if startsB ("@") s then dropS s 1 else s
    let s := if startsB ("/c/") s then dropS s 3
             else if startsB ("/channel/") s then dropS s 9
             else if startsB ("/user/") s then dropS s 6 else s
    let s := if startsB ("c/") s then dropS s 2
             else if startsB ("channel/") s then dropS s 8
             else if startsB ("user/") s then dropS s 5 else s
    headSegment s

/-- The creator allow-list of a state (empty when the snapshot or the list is
absent); used to phrase theorems about `youtubeCreatorAllowed`. -/
def creatorsOf (s : BgState) : List String :=
  match s.config with
  | none => []
  | some c => c.youtubeCreators.getD []

/-- `youtubeCreatorAllowed(authorName, authorUrl)` from `background.js`. -/
def youtubeCreatorAllowed (s : BgState) (authorName authorUrl : String) : Bool :=
  match s.config with
  | none => false
  | some c =>
    match c.youtubeCreators with
    | none => false
    | some creators =>
      if creators.length = 0 then false
      else
        let na := normalizeCreator authorName
        let nu := normalizeCreator authorUrl
        creators.any fun creator =>
          let nc := normalizeCreator creator
          na == nc || nu == nc || subStrB nc na || subStrB nc nu

/-- `youtubeVideoAllowed(title)` from `background.js`. -/
def youtubeVideoAllowed (s : BgState) (title : String) : Bool :=
  match s.config with
  | none => false
  | some c =>
    match c.youtubeKeywords with
    | none => false
    | some kws =>
      if kws.length = 0 then false
      else kws.any fun k => subStrB (lowerS k) (lowerS title)

/-- The payload of a successful `/youtube-info` lookup. -/
structure YtInfo where
  title : String
  authorName : String
  authorUrl : String
deriving DecidableEq

/-- Outcome of the remote `fetch` inside `fetchYouTubeInfo`. -/
inductive YtFetch where
  | ok (info : YtInfo)
  | httpErr
  | netErr
deriving DecidableEq

/-- `fetchYouTubeInfo(url)` from `background.js` as a function of the fetch
outcome: a non-OK response falls through to `return null`, and a thrown
network error is caught and also yields `null` — no error escapes. -/
def fetchYouTubeInfo : YtFetch → Option YtInfo
  | .ok info => some info
  | .httpErr => none
  | .netErr => none

/-- The reply object built by the `checkYouTube` message handler in
`background.js` (absent JS fields are `none`). -/
structure YtReply where
  shouldCheck : Bool
  allowed : Option Bool := none
  reason : Option String := none
  title : Option String := none
  author : Option String := none
deriving DecidableEq

/-- The `checkYouTube` branch of the message listener in `background.js`,
with the result of `fetchYouTubeInfo` passed in as `lookup`. -/
def checkYouTube (rex : String → Option (String → Bool))
    (s : BgState) (now : Int) (url : String) (lookup : Option YtInfo) : YtReply :=
  if !(jsTruthyS s.configId) then
    { shouldCheck := true, allowed := some false,
      reason := some ("Extension not configured") }
  else if isFreeTime s now then
    { shouldCheck := false }
  else if matchesWhitelist rex s url then
    { shouldCheck := false }
  else
    match lookup with
    | none =>
      { shouldCheck := true, allowed := some false,
        reason := some ("Could not verify video") }
    | some info =>
      if youtubeCreatorAllowed s info.authorName info.authorUrl then
        { shouldCheck := true, allowed := some true,
          title := some info.title, author := some info.authorName }
      else if youtubeVideoAllowed s info.title then
        { shouldCheck := true, allowed := some true, title := some info.title }
      else
        { shouldCheck := true, allowed := some false,
          title := some info.title, author := some info.authorName,
          reason := some ("Video not from allowed creator or matching keywords") }

/-- Outcome of the remote `fetch` inside `syncConfig`:
`ok` = OK status with a well-formed body; `okMalformed` = OK status but
`res.json()` throws (before any assignment); `notFound` = status 404;
`httpErr` = any other non-OK status; `netErr` = `fetch` throws. -/
inductive SyncOutcome where
  | ok (cfg : Config)
  | okMalformed
  | notFound
  | httpErr
  | netErr
deriving DecidableEq

/-- `syncConfig()` from `background.js` as a state transition indexed by the
fetch outcome.  It returns a plain state (the JS function catches every
error internally and never throws to its callers). -/
def syncConfig (s : BgState) (now : Int) (o : SyncOutcome) : BgState :=
  if !(jsTruthyS s.configId) || !(jsTruthyS s.apiUrl) then s
  else
    match o with
    | .ok cfg => { s with config := some cfg, lastSyncTime := some now }
    | .okMalformed => s
    | .notFound => { s with configId := none, config := none, lastSyncTime := none }
    | .httpErr => s
    | .netErr => s

/-- The calls the `background.js` module makes at load time (process start),
in source order. -/
inductive TopAction where
  | callLoadFromStorage
  | callSyncConfig
  | registerNavListener
  | registerMessageListener
  | createAlarm (nm : String)
  | registerAlarmListener
deriving DecidableEq

/-- The top-level statements of `background.js` in source order:
`const storageReady = loadFromStorage()`, the `onBeforeNavigate` listener
registration, the message listener, the two `chrome.alarms.create` calls,
and the alarm listener.  `syncConfig` is not called at module load. -/
def startupActions : List TopAction :=
  [ .callLoadFromStorage, .registerNavListener, .registerMessageListener,
    .createAlarm ("sync"), .createAlarm ("checkTabs"), .registerAlarmListener ]

/-- The steps of the `onBeforeNavigate` handler body in `background.js`,
in source order. -/
inductive NavStep where
  | checkFrameId
  | awaitStorageReady
  | evalShouldBlock
  | redirectIfBlocked
deriving DecidableEq

/-- Body of the `onBeforeNavigate` listener, in source order: the frame
check, `await storageReady`, the `shouldBlock` call, the redirect. -/
def onBeforeNavigateSteps : List NavStep :=
  [ .checkFrameId, .awaitStorageReady, .evalShouldBlock, .redirectIfBlocked ]

/-- A schedule entry of the second background-worker variant
(`{start:"HH:MM", end:"HH:MM"}`); empty strings model missing fields. -/
structure TimeRange where
  start : String
  stop : String
deriving DecidableEq

/-- The settings object of the second background-worker variant
(`DEFAULT_SETTINGS` shape).  `schedules` may contain `null` entries
(`Option TimeRange`); `manualDisabledUntil` is a number with `0` falsy. -/
structure FmSettings where
  enabled : Bool
  whitelist : List String
  schedules : List (List (Option TimeRange))
  manualDisabledUntil : Int
deriving DecidableEq

/-- `timeInRangeNow(ranges)` from the second background-worker variant;
`cur` is the current `"HH:MM"` string (JS compares these strings
lexicographically, which the Lean `String` order matches). -/
def timeInRangeNow (ranges : List (Option TimeRange)) (cur : String) : Bool :=
  ranges.any fun r =>
    match r with
    | none => false
    | some r =>
      if r.start = "" || r.stop = "" then false
      else
        (decide (r.start ≤ cur) && decide (cur < r.stop))
          || (decide (r.stop < r.start)
              && (decide (r.start ≤ cur) || decide (cur ≤ r.stop)))

/-- `isSpecialUrl(url)` from the second background-worker variant. -/
def isSpecialUrl (url : String) : Bool :=
  startsB ("chrome://") url || startsB ("chrome-extension://") url
    || startsB ("file://") url || startsB ("about:") url

/-- `compileRegexes(list)` from the second background-worker variant:
patterns whose compilation throws are skipped (only warned about). -/
def compileRegexes (rx : String → Option (String → Bool))
    (list : List String) : List (String → Bool) :=
  list.filterMap rx

/-- `shouldBlockUrl(url)` from the second background-worker variant
(`true` = Block).  `day` is `new Date().getDay()`, `cur` the current
`"HH:MM"` string, `nowMs` is `Date.now()`; `rx` models `new RegExp(s)`. -/
def shouldBlockUrl (rx : String → Option (String → Bool))
    (settings : FmSettings) (url : String)
    (day : Nat) (cur : String) (nowMs : Int) : Bool :=
  if settings.enabled = false then false
  else if settings.manualDisabledUntil != 0
      && decide (nowMs < settings.manualDisabledUntil) then false
  else if isSpecialUrl url then false
  else
    let dayRanges := settings.schedules.getD day []
    if !(timeInRangeNow dayRanges cur) then false
    else if (compileRegexes rx settings.whitelist).any (fun re => re url) then false
    else true

/-- Modelled from the spec's words, for comparison with
`youtubeCreatorAllowed`: allow when the normalized author name or author URL
equals, or is contained within, some normalized entry of the creator
allow-list, with containment bidirectional (author within entry, or entry
within author). -/
def specCreatorAllowed (s : BgState) (authorName authorUrl : String) : Bool :=
  (creatorsOf s).any fun e =>
    let na := normalizeCreator authorName
    let nu := normalizeCreator authorUrl
    let ne := normalizeCreator e
    na == ne || nu == ne
      || subStrB na ne || subStrB nu ne
      || subStrB ne na || subStrB ne nu

/-- Concrete state used by witnesses: configured, a whitelist with one
pattern, no open session, no override. -/
def wlState : BgState :=
  { configId := some ("id"), config := some { whitelist := some ["example"] } }

/-- Concrete state used by witnesses for the budget claims: open session
(`freeTimeStartedAt = 1`), 120 s remaining at sync, `lastSyncTime = 820000`
(so at `now = 1000000` the session is 180 s past its last sync). -/
def budgetState : BgState :=
  { configId := some ("id"),
    config := some { freeTimeStartedAt := some 1, freeTimeRemaining := some 120 },
    lastSyncTime := some 820000 }

/-- C1: with `enabled = false` in the settings, the blocking decision of the
schedule-based background worker is Allow (`shouldBlockUrl` returns `false`)
for every URL, regardless of the manual-disable window, the schedules, and
the whitelist contents — the master-off switch disables all blocking. -/
theorem enabled_false_allows (rx : String → Option (String → Bool))
    (settings : FmSettings) (url : String) (day : Nat) (cur : String) (nowMs : Int)
    (h : settings.enabled = false) :
    shouldBlockUrl rx settings url day cur nowMs = false := by
  simp [shouldBlockUrl, h]

/-- Claim C1 witness: the theorem applied at a concrete disabled settings
object and URL. -/
theorem enabled_false_allows_witness :
    shouldBlockUrl (fun _ => none)
      { enabled := false, whitelist := ["^https"], schedules := [],
        manualDisabledUntil := 0 }
      "https://example.com" 2 "12:00" 5000 = false :=
  enabled_false_allows (fun _ => none)
    { enabled := false, whitelist := ["^https"], schedules := [],
      manualDisabledUntil := 0 }
    "https://example.com" 2 "12:00" 5000 rfl

/-- Claim C2 counterexample: the claim's bidirectional containment
(`specCreatorAllowed`, modelled from the spec's words) accepts an author
whose normalized name `jane` is strictly contained in the allow-list entry
`janedoe`, but the code's `youtubeCreatorAllowed` rejects it: the code only
tests entry-contained-in-author, not author-contained-in-entry. -/
theorem creator_bidirectional_cex :
    specCreatorAllowed
        { config := some { youtubeCreators := some ["janedoe"] } }
        "Jane" "https://www.youtube.com/@jane/videos" = true
      ∧ youtubeCreatorAllowed
        { config := some { youtubeCreators := some ["janedoe"] } }
        "Jane" "https://www.youtube.com/@jane/videos" = false := by
  constructor
  · decide
  · decide

/-- C2 (amended): the secondary evaluator allows a video on creator match
exactly when the normalized author name or normalized author URL equals some
normalized entry of the creator allow-list, or some normalized entry is
contained within the normalized author name or author URL — containment is
one-directional (entry within author value); an author value strictly
contained in an entry does not match. -/
theorem creator_allowed_amended (s : BgState) (a u : String) :
    youtubeCreatorAllowed s a u = true ↔
      ∃ e ∈ creatorsOf s,
        (normalizeCreator a = normalizeCreator e
          ∨ normalizeCreator u = normalizeCreator e
          ∨ subStrB (normalizeCreator e) (normalizeCreator a) = true
          ∨ subStrB (normalizeCreator e) (normalizeCreator u) = true) := by
  rcases s with ⟨au, ci, cfg, lst⟩
  rcases cfg with _ | c
  · simp [youtubeCreatorAllowed, creatorsOf]
  · rcases hc : c.youtubeCreators with _ | creators
    · simp [youtubeCreatorAllowed, creatorsOf, hc]
    · rcases creators with _ | ⟨hd, tl⟩
      · simp [youtubeCreatorAllowed, creatorsOf, hc]
      · simp [youtubeCreatorAllowed, creatorsOf, hc, List.any_eq_true, or_assoc]

/-- Claim C3 counterexample: no `syncConfig` call appears among the actions
`background.js` performs at process start (`startupActions`): the startup
bootstrap is a local-storage load, not a Sync Client refresh. -/
theorem sync_at_startup_cex : TopAction.callSyncConfig ∉ startupActions := by
  decide

/-- C3 (amended): at process start the background process triggers a
local-storage load (`loadFromStorage`, not a server refresh), and the
navigation gate's `onBeforeNavigate` handler awaits that completed bootstrap
(`await storageReady`) before evaluating `shouldBlock` for the very first
navigation after process start. -/
theorem startup_bootstrap_amended :
    TopAction.callLoadFromStorage ∈ startupActions
      ∧ onBeforeNavigateSteps.indexOf NavStep.awaitStorageReady
          < onBeforeNavigateSteps.indexOf NavStep.evalShouldBlock := by
  decide

/-- C4: when no identity is paired (`configId = null`), `shouldBlock`
returns Block for every URL that does not use a special/internal scheme
(`chrome://`, `chrome-extension://`), for every regex engine, URL parser,
snapshot and clock — the unconfigured client fails closed. -/
theorem unconfigured_blocks (rex : String → Option (String → Bool))
    (parse : String → Option URLParts) (s : BgState) (url : String) (now : Int)
    (h1 : startsB ("chrome://") url = false)
    (h2 : startsB ("chrome-extension://") url = false)
    (h3 : s.configId = none) :
    shouldBlock rex parse s url now = true := by
  simp [shouldBlock, h1, h2, h3, jsTruthyS]

/-- Claim C4 witness: a fresh (fully empty) state blocks a plain web URL. -/
theorem unconfigured_blocks_witness :
    shouldBlock (fun _ => none) (fun _ => none) { } "https://example.com" 0 = true :=
  unconfigured_blocks (fun _ => none) (fun _ => none) { } "https://example.com" 0
    (by decide) (by decide) rfl

/-- C5: for a configured client, whenever the URL matches some whitelist
pattern — each pattern tried as a (case-insensitively compiled) regex via
`rex`, with a pattern whose compilation throws falling back to
case-insensitive substring containment in the URL, never dropped —
`shouldBlock` returns Allow, for every budget/free-time state (in
particular when free time is inactive and the URL would otherwise be
blocked). -/
theorem whitelist_match_allows (rex : String → Option (String → Bool))
    (parse : String → Option URLParts) (s : BgState) (url : String) (now : Int)
    (hc : jsTruthyS s.configId = true)
    (hm : matchesWhitelist rex s url = true) :
    shouldBlock rex parse s url now = false := by
  simp [shouldBlock, hc, hm]

/-- Claim C5 witness: a pattern that fails to compile (`rex` always throws)
still allows `https://EXAMPLE.com/page` by case-insensitive substring
containment of `example`, with free time inactive. -/
theorem whitelist_match_allows_witness :
    shouldBlock (fun _ => none) (fun _ => none) wlState "https://EXAMPLE.com/page" 0
      = false :=
  whitelist_match_allows (fun _ => none) (fun _ => none) wlState
    "https://EXAMPLE.com/page" 0 (by decide) (by decide)

/-- C6: for a fixed snapshot with an open free-time session (a non-zero
`freeTimeStartedAt`) and a fixed non-zero `lastSyncTime`, the projected
remaining budget `getLocalRemainingSeconds` is non-increasing in `now`
(`now1 < now2` gives `remaining(now2) ≤ remaining(now1)`), floored at 0 and
never negative. -/
theorem remaining_monotone (s : BgState) (c : Config) (f t now1 now2 : Int)
    (hc : s.config = some c) (hf : c.freeTimeStartedAt = some f) (hf0 : f ≠ 0)
    (ht : s.lastSyncTime = some t) (ht0 : t ≠ 0) (hlt : now1 < now2) :
    getLocalRemainingSeconds s now2 ≤ getLocalRemainingSeconds s now1
      ∧ 0 ≤ getLocalRemainingSeconds s now1
      ∧ 0 ≤ getLocalRemainingSeconds s now2 := by
  have hcond : (t != 0 && f != 0) = true := by
    simp [Bool.and_eq_true, bne_iff_ne, ht0, hf0]
  simp only [getLocalRemainingSeconds, hc, ht, hf, hcond, if_true]
  have hcast : ((now1 : ℚ) ≤ (now2 : ℚ)) := by exact_mod_cast hlt.le
  have hstep : ((now1 : ℚ) - (t : ℚ)) / 1000 ≤ ((now2 : ℚ) - (t : ℚ)) / 1000 := by
    gcongr
  exact ⟨max_le_max le_rfl (by linarith), le_max_left _ _, le_max_left _ _⟩

/-- Claim C6 witness: on `budgetState` (open session, 120 s left at sync
time 820000) the projection at `now = 1000000` is at most the projection at
`now = 880000`, and both are non-negative. -/
theorem remaining_monotone_witness :
    getLocalRemainingSeconds budgetState 1000000 ≤ getLocalRemainingSeconds budgetState 880000
      ∧ 0 ≤ getLocalRemainingSeconds budgetState 880000
      ∧ 0 ≤ getLocalRemainingSeconds budgetState 1000000 :=
  remaining_monotone budgetState
    { freeTimeStartedAt := some 1, freeTimeRemaining := some 120 }
    1 820000 880000 1000000 rfl rfl (by decide) rfl (by decide) (by decide)

/-- C7: if a free-time session is open (`freeTimeStartedAt` present), the
last sync is a real past instant, no temporary disable is active, and the
projected remaining seconds is 0, then `isFreeTime` is `false` — budget
exhaustion inside an open session still blocks. -/
theorem exhausted_session_blocks (s : BgState) (c : Config) (f t now : Int)
    (hc : s.config = some c) (hf : c.freeTimeStartedAt = some f)
    (ht : s.lastSyncTime = some t) (ht0 : t ≠ 0) (hnow : t ≤ now)
    (hdis : isTemporarilyDisabled s now = false)
    (hrem : getLocalRemainingSeconds s now = 0) :
    isFreeTime s now = false := by
  have htt : (t != 0) = true := by simp [bne_iff_ne, ht0]
  simp only [isTemporarilyDisabled, hc] at hdis
  simp only [getLocalRemainingSeconds, hc, ht, hf] at hrem
  simp only [isFreeTime, hc, hf, ht, hdis, if_false, htt, if_true, Bool.false_eq_true]
  have hcast : ((t : ℚ) ≤ (now : ℚ)) := by exact_mod_cast hnow
  have helapsed : (0:ℚ) ≤ ((now : ℚ) - (t : ℚ)) / 1000 :=
    div_nonneg (by linarith) (by norm_num)
  by_cases hf0 : f = 0
  · subst hf0
    simp only [bne_self_eq_false, Bool.and_false, if_false, Bool.false_eq_true] at hrem
    rw [hrem]
    simp only [decide_eq_false_iff_not, not_lt]
    linarith
  · have hcond : (t != 0 && f != 0) = true := by
      simp [Bool.and_eq_true, bne_iff_ne, ht0, hf0]
    simp only [hcond, if_true] at hrem
    have hle : c.freeTimeRemaining.getD 0 - ((now : ℚ) - (t : ℚ)) / 1000 ≤ 0 := by
      by_contra hpos
      push_neg at hpos
      rw [max_eq_right hpos.le] at hrem
      linarith
    simp only [decide_eq_false_iff_not, not_lt]
    linarith

/-- Claim C7 witness: the spec's Scenario D — 120 s remaining at sync,
synced 180 s ago (`lastSyncTime = 820000`, `now = 1000000`): the projection
is 0 and `isFreeTime` is `false`. -/
theorem exhausted_session_blocks_witness :
    isFreeTime budgetState 1000000 = false :=
  exhausted_session_blocks budgetState
    { freeTimeStartedAt := some 1, freeTimeRemaining := some 120 }
    1 820000 1000000 rfl rfl rfl (by decide) (by decide) (by decide)
    (by simp [getLocalRemainingSeconds, budgetState]; norm_num)

/-- C8: whenever the remote content lookup for a watch-page URL fails — a
thrown network error or a non-OK response, both of which make
`fetchYouTubeInfo` yield `null` — the `checkYouTube` secondary evaluation
replies Block (`allowed = false`) with the explicit reason
`Could not verify video`; it never allows and, being a total function of
the outcome, never propagates a raw error. -/
theorem lookup_failure_blocks (rex : String → Option (String → Bool))
    (s : BgState) (now : Int) (url : String) (o : YtFetch)
    (ho : o = YtFetch.httpErr ∨ o = YtFetch.netErr)
    (hc : jsTruthyS s.configId = true)
    (hft : isFreeTime s now = false)
    (hwl : matchesWhitelist rex s url = false) :
    checkYouTube rex s now url (fetchYouTubeInfo o)
      = { shouldCheck := true, allowed := some false,
          reason := some ("Could not verify video") } := by
  rcases ho with h | h <;> subst h <;>
    simp [checkYouTube, fetchYouTubeInfo, hc, hft, hwl]

/-- Claim C8 witness: a configured state with free time inactive and a
non-matching whitelist, where the lookup returns a non-OK response. -/
theorem lookup_failure_blocks_witness :
    checkYouTube (fun _ => none) wlState 0 "https://www.youtube.com/watch"
        (fetchYouTubeInfo YtFetch.httpErr)
      = { shouldCheck := true, allowed := some false,
          reason := some ("Could not verify video") } :=
  lookup_failure_blocks (fun _ => none) wlState 0 "https://www.youtube.com/watch"
    YtFetch.httpErr (Or.inl rfl) (by decide) (by decide) (by decide)

/-- C9: for every refresh outcome other than success and not-found — an OK
response with a malformed body, any other non-OK non-404 HTTP status, or a
thrown network error — `syncConfig` returns the state completely unchanged
(cached snapshot, `lastSyncTime`, identity, server URL), and, being a total
state transition, propagates no error to its callers. -/
theorem transient_sync_keeps_state (s : BgState) (now : Int) (o : SyncOutcome)
    (ho : o = SyncOutcome.okMalformed ∨ o = SyncOutcome.httpErr
      ∨ o = SyncOutcome.netErr) :
    syncConfig s now o = s := by
  rcases ho with h | h | h <;> subst h <;> simp [syncConfig]

/-- Claim C9 witness: a fully configured, previously synced state is intact
after a network failure during refresh. -/
theorem transient_sync_keeps_state_witness :
    syncConfig
        { apiUrl := some ("http://h"), configId := some ("id"),
          config := some { freeTimeRemaining := some 120 }, lastSyncTime := some 5 }
        77 SyncOutcome.netErr
      = { apiUrl := some ("http://h"), configId := some ("id"),
          config := some { freeTimeRemaining := some 120 }, lastSyncTime := some 5 } :=
  transient_sync_keeps_state
    { apiUrl := some ("http://h"), configId := some ("id"),
      config := some { freeTimeRemaining := some 120 }, lastSyncTime := some 5 }
    77 SyncOutcome.netErr (Or.inr (Or.inr rfl))

/-- C10: in every state whose cached snapshot is absent (`config = null`) —
including the half-cleared state where an identity or a stale
`lastSyncTime` is still present — `isFreeTime` is `false` and
`getLocalRemainingSeconds` is 0, for every clock value: an absent snapshot
never presents as active free time or positive remaining budget. -/
theorem absent_snapshot_inert (s : BgState) (now : Int)
    (h : s.config = none) :
    isFreeTime s now = false ∧ getLocalRemainingSeconds s now = 0 := by
  constructor
  · simp [isFreeTime, h]
  · simp [getLocalRemainingSeconds, h]

/-- Claim C10 witness: the half-cleared state (identity and `lastSyncTime`
present, snapshot absent) reports no free time and zero remaining. -/
theorem absent_snapshot_inert_witness :
    isFreeTime { configId := some ("id"), lastSyncTime := some 5 } 1000000 = false
      ∧ getLocalRemainingSeconds { configId := some ("id"), lastSyncTime := some 5 } 1000000
          = 0 :=
  absent_snapshot_inert { configId := some ("id"), lastSyncTime := some 5 } 1000000 rfl
